import Mathlib

/-!
Shallow embedding of `src/main.py` (discord-dns-webhook).

Modelling conventions:
- Timestamps (`time.time()`, expiries) are modelled as `Int`; only ordering and
  subtraction of timestamps occur in the source, so the integer model is faithful.
- The Python `dict` used for the response cache and the configuration is modelled
  as an association list with first-occurrence lookup and in-place update
  (`storeSet` replaces the value at the existing key's position, otherwise appends,
  matching CPython dict insertion-order semantics).
- Effects (DNS resolution, HTTP POST, file I/O) are modelled by passing their
  outcomes in explicitly; a Python exception that the source does not catch is an
  `Except.error` / `CycleResult.aborted`.
- `yaml.dump` / `yaml.load` are modelled at the level of the YAML document tree
  (`YamlValue`): `_save_response_cache` produces the tree that would be written,
  `_load_response_cache` consumes it.
-/

/-- DnsResponse namedtuple from main.py line 13: fields ipv4, expiry, response_time. -/
structure DnsResponse where
  ipv4 : String
  expiry : Int
  response_time : Int
deriving DecidableEq, Repr

/-- HostConfiguration namedtuple from main.py line 14: fields name, webhook_uri. -/
structure HostConfiguration where
  name : String
  webhook_uri : String
deriving DecidableEq, Repr

/-- The in-memory response cache: Python dict hostname -> DnsResponse. -/
abbrev ResponseStore := List (String × DnsResponse)

/-- The configuration mapping: Python dict hostname -> HostConfiguration. -/
abbrev ConfigMap := List (String × HostConfiguration)

/-- Python `responses.get(host)`: first-occurrence lookup in the dict. -/
def storeGet : ResponseStore → String → Option DnsResponse
  | [], _ => none
  | (k, v) :: rest, host => if k = host then some v else storeGet rest host

/-- Python `responses[host] = r`: replace the value at an existing key in place,
otherwise append the new binding at the end (dict insertion-order semantics). -/
def storeSet : ResponseStore → String → DnsResponse → ResponseStore
  | [], host, r => [(host, r)]
  | (k, v) :: rest, host, r =>
    if k = host then (host, r) :: rest else (k, v) :: storeSet rest host r

/-- Python `responses.keys()` as a list (insertion order). -/
def storeKeys (store : ResponseStore) : List String :=
  store.map Prod.fst

/-- Python `config[host]` lookup, as an Option (a missing key raises KeyError). -/
def configGet : ConfigMap → String → Option HostConfiguration
  | [], _ => none
  | (k, v) :: rest, host => if k = host then some v else configGet rest host

/-- Embeds `_is_response_stale` (main.py lines 45-51): a host is stale when it is
absent from the cache, or when its cached expiry is strictly below the current
time (`response.expiry < time.time()`). -/
def is_response_stale (responses : ResponseStore) (host : String) (now : Int) : Bool :=
  match storeGet responses host with
  | none => true
  | some response => response.expiry < now

/-- Embeds the change-detection condition of main.py line 97:
`old_response is None or old_response.ipv4 != response.ipv4`. -/
def isNotable (old_response : Option DnsResponse) (response : DnsResponse) : Bool :=
  match old_response with
  | none => true
  | some old => old.ipv4 != response.ipv4

/-- The message formatted by `_notify_webhook` (main.py line 55). -/
def webhook_content (host : String) (host_config : HostConfiguration)
    (response : DnsResponse) : String :=
  "IP address for **" ++ host_config.name ++ "** (" ++ host ++ ") is now **"
    ++ response.ipv4 ++ "**"

/-- Outcome of the HTTP POST issued by `requests.post` in `_notify_webhook`:
a 2xx response, a non-2xx response, or a transport-level failure (which
`requests.post` raises as an exception). -/
inductive DeliveryOutcome where
  | success2xx : DeliveryOutcome
  | non2xx : DeliveryOutcome
  | transportFailure : DeliveryOutcome
deriving DecidableEq, Repr

/-- Embeds `_notify_webhook` (main.py lines 54-61): the returned response object
is discarded and its status code never inspected, so a non-2xx response behaves
exactly like success; a transport failure raises out of the function. -/
def notify_webhook (delivery : DeliveryOutcome) : Except Unit Unit :=
  match delivery with
  | .transportFailure => .error ()
  | _ => .ok ()

/-- A YAML document tree, the level at which `yaml.dump` / `yaml.load` round the
cache through the file. -/
inductive YamlValue where
  | str : String → YamlValue
  | int : Int → YamlValue
  | map : List (String × YamlValue) → YamlValue

/-- Lookup in a YAML mapping node (Python `v[key]`, as an Option). -/
def yamlGet : List (String × YamlValue) → String → Option YamlValue
  | [], _ => none
  | (k, v) :: rest, key => if k = key then some v else yamlGet rest key

/-- Python `response._asdict()` as serialized by `yaml.dump`: a mapping node with
the namedtuple's three fields. -/
def response_asdict (r : DnsResponse) : YamlValue :=
  .map [("ipv4", .str r.ipv4), ("expiry", .int r.expiry),
        ("response_time", .int r.response_time)]

/-- Embeds `_save_response_cache` (main.py lines 38-42): the YAML document
written to the cache file, `{k: v._asdict() for k, v in responses.items()}`. -/
def save_response_cache (responses : ResponseStore) : YamlValue :=
  .map (responses.map (fun p => (p.1, response_asdict p.2)))

/-- Reconstructs one `DnsResponse(v['ipv4'], v['expiry'], v['response_time'])`
from a YAML node (main.py line 31); `none` models the KeyError/TypeError that a
malformed node would raise. -/
def parse_response (v : YamlValue) : Option DnsResponse :=
  match v with
  | .map fields =>
    match yamlGet fields "ipv4", yamlGet fields "expiry",
          yamlGet fields "response_time" with
    | some (.str ip), some (.int e), some (.int t) => some ⟨ip, e, t⟩
    | _, _, _ => none
  | _ => none

/-- Reconstructs the whole cache dict from the loaded YAML mapping's items. -/
def parse_cache : List (String × YamlValue) → Option ResponseStore
  | [] => some []
  | (k, v) :: rest =>
    match parse_response v, parse_cache rest with
    | some r, some s => some ((k, r) :: s)
    | _, _ => none

/-- State of the cache file as seen by `_load_response_cache`: missing
(open raises FileNotFoundError), or present with `yaml.load`'s result
(`none` when the file is empty and yaml.load returns None). -/
inductive CacheFile where
  | missing : CacheFile
  | content : Option YamlValue → CacheFile

/-- Logging levels used by the source (logging.error on a missing cache file). -/
inductive LogLevel where
  | debug : LogLevel
  | info : LogLevel
  | warning : LogLevel
  | error : LogLevel
deriving DecidableEq, Repr

/-- Embeds `_load_response_cache` (main.py lines 23-35): a missing file is caught,
logged via `logging.error`, and yields the empty dict; an empty file (yaml.load
returns None) yields the empty dict; any other malformed content raises out of
the function (`Except.error`, fatal at startup). Returns the loaded store paired
with the log records emitted. -/
def load_response_cache : CacheFile → Except Unit (ResponseStore × List LogLevel)
  | .missing => .ok ([], [LogLevel.error])
  | .content none => .ok ([], [])
  | .content (some (.map entries)) =>
    match parse_cache entries with
    | some store => .ok (store, [])
    | none => .error ()
  | .content (some _) => .error ()

/-- The log records emitted by a load (empty when the load raised). -/
def loadLogs (result : Except Unit (ResponseStore × List LogLevel)) : List LogLevel :=
  match result with
  | .ok (_, logs) => logs
  | .error _ => []

/-- Environment supplied to the processing of one stale host: the outcome of
`_check_dns` (`none` models a raised ResolutionError: NXDOMAIN, timeout, empty
answer set) and the outcome of the webhook POST. -/
structure HostEnv where
  resolution : Option DnsResponse
  delivery : DeliveryOutcome

/-- Mutable state threaded through the scheduler loop: the in-memory `responses`
dict, the last YAML document written to the cache file (`none` before the first
save), and the contents of the webhook messages successfully handed to
`requests.post`. -/
structure LoopState where
  responses : ResponseStore
  savedCache : Option YamlValue
  sent : List String

/-- Embeds one iteration of the `for stale_host in stale_hosts` body
(main.py lines 92-103), in source order: `_check_dns` (an exception propagates
uncaught), change detection, conditional `_notify_webhook` (an exception from
`requests.post` propagates uncaught, BEFORE the store update), then
`responses[stale_host] = response` and `_save_response_cache`. -/
def process_stale_host (config : ConfigMap) (host : String) (env : HostEnv)
    (st : LoopState) : Except Unit LoopState :=
  match env.resolution with
  | none => .error ()
  | some response =>
    match (if isNotable (storeGet st.responses host) response then
             match configGet config host with
             | none => Except.error ()
             | some host_config =>
               match notify_webhook env.delivery with
               | .error _ => Except.error ()
               | .ok _ =>
                 Except.ok (st.sent ++ [webhook_content host host_config response])
           else
             Except.ok st.sent : Except Unit (List String)) with
    | .error e => .error e
    | .ok sent =>
      .ok { responses := storeSet st.responses host response,
            savedCache := some (save_response_cache (storeSet st.responses host response)),
            sent := sent }

/-- Result of a scheduler cycle: completed normally, or aborted by an uncaught
exception; `aborted` carries the loop state at the moment the exception was
raised (later hosts unprocessed, the raising host's update not applied). -/
inductive CycleResult where
  | ok : LoopState → CycleResult
  | aborted : LoopState → CycleResult

/-- The loop state carried by a cycle result. -/
def CycleResult.state : CycleResult → LoopState
  | .ok st => st
  | .aborted st => st

/-- Runs the `for stale_host in stale_hosts` loop over the given host list;
an uncaught exception in one iteration aborts the whole cycle. -/
def process_hosts (config : ConfigMap) (envs : String → HostEnv) :
    List String → LoopState → CycleResult
  | [], st => .ok st
  | host :: rest, st =>
    match process_stale_host config host (envs host) st with
    | .error _ => .aborted st
    | .ok st' => process_hosts config envs rest st'

/-- Embeds `filter(stale_check_predicate, config.keys())` (main.py line 90).
The predicate is `functools.partial(_is_response_stale, responses)` built once
before the loop (line 87), but `partial` captures a reference to the `responses`
dict object, which line 102 mutates in place — so every evaluation of the
predicate reads the live, current dict. The embedding therefore applies the
staleness test to the store threaded into the current cycle. -/
def stale_hosts (config : ConfigMap) (responses : ResponseStore) (now : Int) :
    List String :=
  (config.map Prod.fst).filter (fun h => is_response_stale responses h now)

/-- One full cycle of the `while True` scheduler loop (main.py lines 89-103),
up to but not including the sleep computation: scan for stale hosts against the
current store at time `now`, then process them in config order. -/
def run_cycle (config : ConfigMap) (envs : String → HostEnv) (now : Int)
    (st : LoopState) : CycleResult :=
  process_hosts config envs (stale_hosts config st.responses now) st

/-- Embeds `min(map(operator.attrgetter('expiry'), responses.values()))`
(main.py line 105); `none` models the ValueError that Python's `min` raises on
an empty sequence. -/
def next_check (responses : ResponseStore) : Option Int :=
  match responses.map (fun p => p.2.expiry) with
  | [] => none
  | e :: rest => some (rest.foldl min e)

/-- Embeds `sleep_time = max(30, next_check - time.time())` (main.py line 107),
propagating the ValueError raised by `min` when the store is empty. -/
def sleep_time (responses : ResponseStore) (now : Int) : Option Int :=
  match next_check responses with
  | none => none
  | some nc => some (max 30 (nc - now))

/-- Concrete fixture: a host configuration for scenario checks. -/
def exampleHostConfig : HostConfiguration :=
  { name := "Example", webhook_uri := "http://hook.example" }

/-- Concrete fixture: a resolved DNS answer 1.2.3.4 expiring at time 100. -/
def exampleDns : DnsResponse :=
  { ipv4 := "1.2.3.4", expiry := 100, response_time := 50 }

/-- Concrete fixture: a configuration with the single host example.com. -/
def singleHostConfig : ConfigMap := [("example.com", exampleHostConfig)]

/-- Concrete fixture: the loop state at first startup with no cache file. -/
def emptyState : LoopState := { responses := [], savedCache := none, sent := [] }

/-- Concrete fixture: every resolution succeeds with `exampleDns` but every
webhook POST fails at the transport level (requests.post raises). -/
def transportFailEnv : String → HostEnv :=
  fun _ => { resolution := some exampleDns, delivery := .transportFailure }

/-- Concrete fixture: a configuration with two hosts, in order. -/
def twoHostConfig : ConfigMap :=
  [("a.example", { name := "A", webhook_uri := "http://hook-a.example" }),
   ("b.example", { name := "B", webhook_uri := "http://hook-b.example" })]

/-- Concrete fixture: resolution of a.example raises ResolutionError, while
b.example resolves to 5.6.7.8 and its webhook POST would succeed. -/
def firstFailsEnv : String → HostEnv :=
  fun h =>
    if h = "a.example" then { resolution := none, delivery := .success2xx }
    else { resolution := some { ipv4 := "5.6.7.8", expiry := 200, response_time := 60 },
           delivery := .success2xx }

/-! Helper lemmas. -/

/-- A left fold of `min` is bounded by its initial accumulator. -/
theorem foldl_min_le_init (l : List Int) : ∀ a : Int, l.foldl min a ≤ a := by
  induction l with
  | nil => intro a; exact le_refl a
  | cons b t ih =>
    intro a
    calc t.foldl min (min a b) ≤ min a b := ih (min a b)
      _ ≤ a := min_le_left a b

/-- A left fold of `min` is bounded by every list element. -/
theorem foldl_min_le_mem (l : List Int) :
    ∀ a x : Int, x ∈ l → l.foldl min a ≤ x := by
  induction l with
  | nil => intro a x hx; cases hx
  | cons b t ih =>
    intro a x hx
    rcases List.mem_cons.mp hx with rfl | hx'
    · calc t.foldl min (min a x) ≤ min a x := foldl_min_le_init t (min a x)
        _ ≤ x := min_le_right a x
    · exact ih (min a b) x hx'

/-- A left fold of `min` returns its initial accumulator or a list element. -/
theorem foldl_min_mem (l : List Int) :
    ∀ a : Int, l.foldl min a = a ∨ l.foldl min a ∈ l := by
  induction l with
  | nil => intro a; exact Or.inl rfl
  | cons b t ih =>
    intro a
    rcases ih (min a b) with h | h
    · rcases le_total a b with hab | hba
      · exact Or.inl (by rw [show (b :: t).foldl min a = t.foldl min (min a b) from rfl,
          h, min_eq_left hab])
      · refine Or.inr ?_
        rw [show (b :: t).foldl min a = t.foldl min (min a b) from rfl, h,
          min_eq_right hba]
        exact List.mem_cons_self b t
    · exact Or.inr (List.mem_cons_of_mem b h)

/-- On a non-empty store, `next_check` returns the global minimum expiry:
a value that bounds every entry and is attained by some entry. -/
theorem next_check_spec (responses : ResponseStore) (h : responses ≠ []) :
    ∃ nc, next_check responses = some nc ∧
      (∀ p ∈ responses, nc ≤ p.2.expiry) ∧
      (∃ p ∈ responses, p.2.expiry = nc) := by
  cases responses with
  | nil => exact absurd rfl h
  | cons hd tl =>
    refine ⟨(tl.map (fun p => p.2.expiry)).foldl min hd.2.expiry, ?_, ?_, ?_⟩
    · rfl
    · intro p hp
      rcases List.mem_cons.mp hp with rfl | hp'
      · exact foldl_min_le_init _ _
      · exact foldl_min_le_mem _ _ _ (List.mem_map.mpr ⟨p, hp', rfl⟩)
    · rcases foldl_min_mem (tl.map (fun p => p.2.expiry)) hd.2.expiry with h1 | h1
      · exact ⟨hd, List.mem_cons_self _ _, h1.symm⟩
      · rcases List.mem_map.mp h1 with ⟨p, hp, hpe⟩
        exact ⟨p, List.mem_cons_of_mem _ hp, hpe⟩

/-- Unfolding of storeKeys on a cons cell. -/
theorem storeKeys_cons (a : String) (b : DnsResponse) (tl : ResponseStore) :
    storeKeys ((a, b) :: tl) = a :: storeKeys tl := rfl

/-- Updating one key never removes any key from the store. -/
theorem storeKeys_storeSet (s : ResponseStore) (k : String) (r : DnsResponse) :
    ∀ x, x ∈ storeKeys s → x ∈ storeKeys (storeSet s k r) := by
  induction s with
  | nil => intro x hx; cases hx
  | cons hd tl ih =>
    intro x hx
    cases hd with
    | mk a b =>
      rw [storeKeys_cons] at hx
      by_cases hk : a = k
      · subst hk
        simp only [storeSet, if_pos rfl, storeKeys_cons]
        exact hx
      · simp only [storeSet, if_neg hk, storeKeys_cons]
        rcases List.mem_cons.mp hx with h1 | h1
        · exact List.mem_cons.mpr (Or.inl h1)
        · exact List.mem_cons.mpr (Or.inr (ih x h1))

/-- Updating key `k` leaves the binding of every other key unchanged. -/
theorem storeGet_storeSet_ne (s : ResponseStore) (k host : String) (r : DnsResponse)
    (h : host ≠ k) : storeGet (storeSet s k r) host = storeGet s host := by
  have hk : ¬ (k = host) := fun hh => h hh.symm
  induction s with
  | nil =>
    simp only [storeSet, storeGet]
    rw [if_neg hk]
  | cons hd tl ih =>
    cases hd with
    | mk a b =>
      by_cases ha : a = k
      · subst ha
        simp only [storeSet, if_pos rfl, storeGet]
        rw [if_neg hk, if_neg hk]
      · simp only [storeSet, if_neg ha, storeGet]
        by_cases hax : a = host
        · rw [if_pos hax, if_pos hax]
        · rw [if_neg hax, if_neg hax, ih]

/-- Serializing a DnsResponse and reading its three fields back is the identity. -/
theorem parse_response_asdict (r : DnsResponse) :
    parse_response (response_asdict r) = some r := rfl

/-- Parsing the item list written by the save is the identity on the store. -/
theorem parse_cache_save (M : ResponseStore) :
    parse_cache (M.map (fun p => (p.1, response_asdict p.2))) = some M := by
  induction M with
  | nil => rfl
  | cons hd tl ih =>
    simp only [List.map_cons, parse_cache, parse_response_asdict, ih]

/-- Characterizes a successful per-host step: the resolution succeeded and the
resulting state holds the updated store and its freshly saved serialization. -/
theorem process_stale_host_ok (config : ConfigMap) (host : String) (env : HostEnv)
    (st st' : LoopState) (h : process_stale_host config host env st = .ok st') :
    ∃ r, env.resolution = some r ∧
      st'.responses = storeSet st.responses host r ∧
      st'.savedCache = some (save_response_cache (storeSet st.responses host r)) := by
  obtain ⟨res, del⟩ := env
  cases res with
  | none => exact absurd h (by simp [process_stale_host])
  | some r =>
    refine ⟨r, rfl, ?_⟩
    unfold process_stale_host at h
    dsimp only at h
    split at h
    · cases h
    · injection h with h2
      subst h2
      exact ⟨rfl, rfl⟩

/-- Along the per-host loop, every key present before stays present, whether the
cycle completes or aborts. -/
theorem process_hosts_keys (config : ConfigMap) (envs : String → HostEnv)
    (hosts : List String) (st : LoopState) (x : String)
    (hx : x ∈ storeKeys st.responses) :
    x ∈ storeKeys (process_hosts config envs hosts st).state.responses := by
  induction hosts generalizing st with
  | nil => exact hx
  | cons h rest ih =>
    show x ∈ storeKeys (match process_stale_host config h (envs h) st with
      | .error _ => CycleResult.aborted st
      | .ok st' => process_hosts config envs rest st').state.responses
    cases hp : process_stale_host config h (envs h) st with
    | error e => exact hx
    | ok st' =>
      rcases process_stale_host_ok config h (envs h) st st' hp with ⟨r, _, hresp, _⟩
      exact ih st' (by rw [hresp]; exact storeKeys_storeSet st.responses h r x hx)

/-- A per-host step for a different host leaves that host's binding unchanged. -/
theorem process_stale_host_get_other (config : ConfigMap) (host : String)
    (env : HostEnv) (st st' : LoopState) (x : String)
    (h : process_stale_host config host env st = .ok st') (hx : x ≠ host) :
    storeGet st'.responses x = storeGet st.responses x := by
  rcases process_stale_host_ok config host env st st' h with ⟨r, _, hresp, _⟩
  rw [hresp]
  exact storeGet_storeSet_ne st.responses host x r hx

/-- Processing a host list that avoids `x` leaves the binding of `x` unchanged,
whether the cycle completes or aborts. -/
theorem process_hosts_get_other (config : ConfigMap) (envs : String → HostEnv)
    (hosts : List String) (st : LoopState) (x : String) (hx : x ∉ hosts) :
    storeGet (process_hosts config envs hosts st).state.responses x
      = storeGet st.responses x := by
  induction hosts generalizing st with
  | nil => rfl
  | cons h rest ih =>
    show storeGet (match process_stale_host config h (envs h) st with
      | .error _ => CycleResult.aborted st
      | .ok st' => process_hosts config envs rest st').state.responses x
      = storeGet st.responses x
    cases hp : process_stale_host config h (envs h) st with
    | error e => rfl
    | ok st' =>
      rw [ih st' (fun hmem => hx (List.mem_cons_of_mem h hmem))]
      exact process_stale_host_get_other config h (envs h) st st' x hp
        (fun he => hx (he ▸ List.mem_cons_self h rest))

/-! Claim theorems. -/

/-- Claim C1: at the end of every cycle with a non-empty store, the computed
sleep duration equals max(30, nextCheck - now), where nextCheck is the minimum
expiry over ALL entries currently in the store; in particular, for entries with
expiries A = now+10 and B = now+500 the sleep is 30, and for a single entry
expiring at now+100 it is 100. -/
theorem scheduler_sleep_spec (responses : ResponseStore) (now : Int)
    (h : responses ≠ []) :
    (∃ nc, next_check responses = some nc ∧
        (∀ p ∈ responses, nc ≤ p.2.expiry) ∧
        (∃ p ∈ responses, p.2.expiry = nc) ∧
        sleep_time responses now = some (max 30 (nc - now))) ∧
    (∀ rA rB : DnsResponse, rA.expiry = now + 10 → rB.expiry = now + 500 →
        sleep_time [("A", rA), ("B", rB)] now = some 30) ∧
    (∀ rA : DnsResponse, rA.expiry = now + 100 →
        sleep_time [("A", rA)] now = some 100) := by
  refine ⟨?_, ?_, ?_⟩
  · rcases next_check_spec responses h with ⟨nc, h1, h2, h3⟩
    exact ⟨nc, h1, h2, h3, by simp [sleep_time, h1]⟩
  · intro rA rB hA hB
    show some (max 30 (min rA.expiry rB.expiry - now)) = some 30
    rw [hA, hB]
    congr 1
    omega
  · intro rA hA
    show some (max 30 (rA.expiry - now)) = some 100
    rw [hA]
    congr 1
    omega

/-- Witness for C1 at the concrete store with the single entry a -> expiry 40,
taken at time 0. -/
theorem scheduler_sleep_spec_witness :
    ∃ nc, next_check [("a", DnsResponse.mk "1.2.3.4" 40 0)] = some nc ∧
      (∀ p ∈ [("a", DnsResponse.mk "1.2.3.4" 40 0)], nc ≤ p.2.expiry) ∧
      (∃ p ∈ [("a", DnsResponse.mk "1.2.3.4" 40 0)], p.2.expiry = nc) ∧
      sleep_time [("a", DnsResponse.mk "1.2.3.4" 40 0)] 0 = some (max 30 (nc - 0)) :=
  (scheduler_sleep_spec [("a", DnsResponse.mk "1.2.3.4" 40 0)] 0 (by simp)).1

/-- Claim C2: the code raises here. With an empty store, line 105's
`min(...)` is applied to an empty sequence, which raises an uncaught
ValueError instead of defaulting the sleep to the 30-second floor; the model
returns `none` (no defined sleep value) rather than `some 30`. -/
theorem empty_store_sleep_raises :
    next_check ([] : ResponseStore) = none ∧
      sleep_time ([] : ResponseStore) 0 = none ∧
      sleep_time ([] : ResponseStore) 0 ≠ some 30 :=
  ⟨rfl, rfl, by simp [sleep_time, next_check]⟩

/-- Claim C3 (amended): isStale is true for every host absent from the store;
for a present host it is false when now ≤ expiry and true when expiry < now
(the source compares strictly, `response.expiry < time.time()`). -/
theorem staleness_spec (store : ResponseStore) (host : String) (now : Int) :
    (storeGet store host = none → is_response_stale store host now = true) ∧
    (∀ r, storeGet store host = some r → now ≤ r.expiry →
        is_response_stale store host now = false) ∧
    (∀ r, storeGet store host = some r → r.expiry < now →
        is_response_stale store host now = true) := by
  refine ⟨?_, ?_, ?_⟩
  · intro hget
    simp [is_response_stale, hget]
  · intro r hget hle
    simp only [is_response_stale, hget, decide_eq_false_iff_not]
    omega
  · intro r hget hlt
    simp only [is_response_stale, hget, decide_eq_true_eq]
    exact hlt

/-- Witness for C3 at concrete stores: an absent host, a fresh entry, and an
expired entry. -/
theorem staleness_spec_witness :
    is_response_stale [] "h" 0 = true ∧
    is_response_stale [("h", DnsResponse.mk "1.2.3.4" 5 0)] "h" 5 = false ∧
    is_response_stale [("h", DnsResponse.mk "1.2.3.4" 5 0)] "h" 6 = true :=
  ⟨(staleness_spec [] "h" 0).1 rfl,
   (staleness_spec [("h", DnsResponse.mk "1.2.3.4" 5 0)] "h" 5).2.1
     (DnsResponse.mk "1.2.3.4" 5 0) rfl (by decide),
   (staleness_spec [("h", DnsResponse.mk "1.2.3.4" 5 0)] "h" 6).2.2
     (DnsResponse.mk "1.2.3.4" 5 0) rfl (by decide)⟩

/-- Counterexample to C3 as stated: a host present with expiry equal to now
(expiry ≤ now) is reported NOT stale, because the source compares strictly. -/
theorem staleness_boundary_counterexample :
    storeGet [("example.com", DnsResponse.mk "1.2.3.4" 100 50)] "example.com"
      = some (DnsResponse.mk "1.2.3.4" 100 50) ∧
    (100 : Int) ≤ 100 ∧
    is_response_stale [("example.com", DnsResponse.mk "1.2.3.4" 100 50)]
      "example.com" 100 = false :=
  ⟨by decide, by decide, by decide⟩

/-- Claim C4: a change is notable exactly when there is no previous response or
the previous ipv4 differs; identical responses are never notable, and responses
differing only in expiry or response_time are never notable. -/
theorem notable_spec :
    (∀ r : DnsResponse, isNotable (some r) r = false) ∧
    (∀ r : DnsResponse, isNotable none r = true) ∧
    (∀ old r : DnsResponse, old.ipv4 = r.ipv4 → isNotable (some old) r = false) ∧
    (∀ old r : DnsResponse, isNotable (some old) r = (old.ipv4 != r.ipv4)) := by
  refine ⟨?_, fun _ => rfl, ?_, fun _ _ => rfl⟩
  · intro r
    simp [isNotable]
  · intro old r hip
    simp [isNotable, hip]

/-- Witness for C4 at concrete responses: identical response, first sighting,
and a refresh that changes only expiry and response_time. -/
theorem notable_spec_witness :
    isNotable (some (DnsResponse.mk "1.2.3.4" 10 0)) (DnsResponse.mk "1.2.3.4" 10 0)
      = false ∧
    isNotable none (DnsResponse.mk "1.2.3.4" 10 0) = true ∧
    isNotable (some (DnsResponse.mk "1.2.3.4" 10 0)) (DnsResponse.mk "1.2.3.4" 99 7)
      = false :=
  ⟨notable_spec.1 (DnsResponse.mk "1.2.3.4" 10 0),
   notable_spec.2.1 (DnsResponse.mk "1.2.3.4" 10 0),
   notable_spec.2.2.1 (DnsResponse.mk "1.2.3.4" 10 0) (DnsResponse.mk "1.2.3.4" 99 7) rfl⟩

/-- Claim C5 (amended): after a successful resolution, a non-2xx webhook
response does not abort the cycle or block persistence — the status code is
never inspected, so it behaves exactly like success and the store entry is
updated and saved; but a transport failure raises out of `requests.post`
before the store update, aborting the per-host step with nothing persisted. -/
theorem delivery_outcome_spec (config : ConfigMap) (host : String)
    (st : LoopState) (r : DnsResponse) (host_config : HostConfiguration)
    (env : HostEnv) (hres : env.resolution = some r)
    (hcfg : configGet config host = some host_config) :
    (env.delivery ≠ DeliveryOutcome.transportFailure →
      process_stale_host config host env st = .ok
        { responses := storeSet st.responses host r,
          savedCache := some (save_response_cache (storeSet st.responses host r)),
          sent := if isNotable (storeGet st.responses host) r then
                    st.sent ++ [webhook_content host host_config r]
                  else st.sent }) ∧
    (env.delivery = DeliveryOutcome.transportFailure →
      isNotable (storeGet st.responses host) r = true →
      process_stale_host config host env st = .error ()) := by
  obtain ⟨res, del⟩ := env
  cases hres
  constructor
  · intro hd
    cases hN : isNotable (storeGet st.responses host) r <;>
      cases del <;>
        simp_all [process_stale_host, notify_webhook, hcfg]
  · intro hd hN
    cases hd
    simp [process_stale_host, notify_webhook, hcfg, hN]

/-- Witness for C5: a fresh host resolving to 1.2.3.4 whose webhook POST gets
a non-2xx response; the step completes with the entry stored and saved. -/
theorem delivery_outcome_spec_witness :
    process_stale_host singleHostConfig "example.com"
      { resolution := some exampleDns, delivery := DeliveryOutcome.non2xx }
      emptyState = .ok
        { responses := storeSet emptyState.responses "example.com" exampleDns,
          savedCache := some (save_response_cache
            (storeSet emptyState.responses "example.com" exampleDns)),
          sent := if isNotable (storeGet emptyState.responses "example.com") exampleDns then
                    emptyState.sent ++ [webhook_content "example.com" exampleHostConfig exampleDns]
                  else emptyState.sent } :=
  (delivery_outcome_spec singleHostConfig "example.com" emptyState exampleDns
    exampleHostConfig
    { resolution := some exampleDns, delivery := DeliveryOutcome.non2xx }
    rfl rfl).1 (by decide)

/-- Counterexample to C5 as stated: the host resolves successfully, but the
webhook transport failure aborts the whole cycle before the entry is stored or
saved — nothing is updated and nothing is persisted. -/
theorem delivery_failure_counterexample :
    run_cycle singleHostConfig transportFailEnv 0 emptyState = .aborted emptyState ∧
    storeGet (run_cycle singleHostConfig transportFailEnv 0 emptyState).state.responses
      "example.com" = none ∧
    (run_cycle singleHostConfig transportFailEnv 0 emptyState).state.savedCache = none :=
  ⟨rfl, rfl, rfl⟩

/-- Claim C6: the code aborts here. With two stale hosts where the first
resolution raises, the uncaught exception ends the cycle at once: the second
host is never resolved, no notification is evaluated, and neither entry is
updated or persisted. -/
theorem resolution_failure_blocks_rest :
    run_cycle twoHostConfig firstFailsEnv 0 emptyState = .aborted emptyState ∧
    storeGet (run_cycle twoHostConfig firstFailsEnv 0 emptyState).state.responses
      "b.example" = none ∧
    (run_cycle twoHostConfig firstFailsEnv 0 emptyState).state.sent = [] ∧
    (run_cycle twoHostConfig firstFailsEnv 0 emptyState).state.savedCache = none :=
  ⟨rfl, rfl, rfl, rfl⟩

/-- Claim C7: loading after saving round-trips for every non-empty mapping of
hostname to DnsResponse (the namedtuple to dict to namedtuple conversion is the
identity on every entry). -/
theorem cache_round_trip (M : ResponseStore) (h : M ≠ []) :
    load_response_cache (.content (some (save_response_cache M))) = .ok (M, []) := by
  simp [load_response_cache, save_response_cache, parse_cache_save]

/-- Witness for C7 at a concrete one-entry mapping. -/
theorem cache_round_trip_witness :
    load_response_cache (.content (some (save_response_cache
        [("example.com", DnsResponse.mk "1.2.3.4" 100 50)])))
      = .ok ([("example.com", DnsResponse.mk "1.2.3.4" 100 50)], []) :=
  cache_round_trip [("example.com", DnsResponse.mk "1.2.3.4" 100 50)] (by simp)

/-- Claim C8 (amended): loading the cache from a missing file is never fatal:
the FileNotFoundError is caught, the miss is logged (at error level, via
`logging.error`), an empty mapping is returned, and startup proceeds with the
empty store. -/
theorem cache_missing_not_fatal :
    load_response_cache .missing = .ok ([], [LogLevel.error]) := rfl

/-- Counterexample to C8 as stated: the message logged on a missing cache file
is emitted at error level, not warning level — no warning-level record appears. -/
theorem cache_missing_log_counterexample :
    loadLogs (load_response_cache .missing) = [LogLevel.error] ∧
    LogLevel.warning ∉ loadLogs (load_response_cache .missing) :=
  ⟨rfl, by decide⟩

/-- Claim C9: no operation of the loop ever deletes a store entry: every
hostname present in the store before a cycle is still present afterwards,
whether the cycle completes or aborts, so hosts removed from the config remain
in the store. -/
theorem store_keys_never_deleted (config : ConfigMap) (envs : String → HostEnv)
    (now : Int) (st : LoopState) (host : String)
    (h : host ∈ storeKeys st.responses) :
    host ∈ storeKeys (run_cycle config envs now st).state.responses :=
  process_hosts_keys config envs (stale_hosts config st.responses now) st host h

/-- Witness for C9: a host that is no longer in the config (empty config here)
but has a cache entry survives the cycle. -/
theorem store_keys_never_deleted_witness :
    "example.com" ∈ storeKeys (run_cycle [] transportFailEnv 200
      { responses := [("example.com", exampleDns)], savedCache := none,
        sent := [] }).state.responses :=
  store_keys_never_deleted [] transportFailEnv 200
    { responses := [("example.com", exampleDns)], savedCache := none, sent := [] }
    "example.com" (by decide)

/-- Claim C10: the staleness filter of each scan reads the live, current store:
a host stored with a future expiry is reported not stale, is excluded from the
scan's stale-host list, and keeps its entry untouched through the whole cycle
run at any time before that expiry. (The predicate built once by
`functools.partial(_is_response_stale, responses)` holds a reference to the
`responses` dict that line 102 mutates in place, so each evaluation sees the
current contents; the embedding threads the current store into every scan.) -/
theorem live_store_staleness (config : ConfigMap) (envs : String → HostEnv)
    (now : Int) (st : LoopState) (host : String) (r : DnsResponse)
    (hget : storeGet st.responses host = some r) (hfresh : now < r.expiry) :
    is_response_stale st.responses host now = false ∧
    host ∉ stale_hosts config st.responses now ∧
    storeGet (run_cycle config envs now st).state.responses host = some r := by
  have h1 : is_response_stale st.responses host now = false := by
    simp only [is_response_stale, hget, decide_eq_false_iff_not]
    omega
  have h2 : host ∉ stale_hosts config st.responses now := by
    intro hmem
    rcases List.mem_filter.mp hmem with ⟨_, hpred⟩
    rw [h1] at hpred
    cases hpred
  refine ⟨h1, h2, ?_⟩
  rw [show run_cycle config envs now st
    = process_hosts config envs (stale_hosts config st.responses now) st from rfl,
    process_hosts_get_other config envs (stale_hosts config st.responses now) st host h2]
  exact hget

/-- Witness for C10: example.com stored with expiry 100, scanned at time 60
under a single-host config: not stale, excluded from the scan, entry intact
after the cycle. -/
theorem live_store_staleness_witness :
    is_response_stale [("example.com", exampleDns)] "example.com" 60 = false ∧
    "example.com" ∉ stale_hosts singleHostConfig [("example.com", exampleDns)] 60 ∧
    storeGet (run_cycle singleHostConfig transportFailEnv 60
      { responses := [("example.com", exampleDns)], savedCache := none,
        sent := [] }).state.responses "example.com" = some exampleDns :=
  live_store_staleness singleHostConfig transportFailEnv 60
    { responses := [("example.com", exampleDns)], savedCache := none, sent := [] }
    "example.com" exampleDns (by decide) (by decide)
